import Mathlib

/-!
Shallow embedding of the gravity-simulator library (`src/lib.rs`,
`src/directions/coordinate.rs`, `src/directions/direction.rs`, `src/main.rs`).

Machine integers (`i32`) are embedded as `Int`; integer overflow is outside the
domain covered here (the specification declares overflow undefined/wrapping and
out of scope).  Rust's `/` on `i32` truncates toward zero, which is `Int.tdiv`.
The fallible parts (division-by-zero panics inside `apply_physics`) are embedded
with `Option`: `none` models the panic propagating out of the call.
-/

namespace Simulator

/-- 2D motion vector (`direction.rs`, struct `Vector {x: i32, y: i32}`). -/
@[ext] structure Vector where
  x : Int
  y : Int
deriving DecidableEq

/-- 2D position (`coordinate.rs`, struct `Coordinate {x: i32, y: i32}`). -/
@[ext] structure Coordinate where
  x : Int
  y : Int
deriving DecidableEq

/-- `Coordinate::y_in_range` from `coordinate.rs`: `self.y` lies between `a.y`
and `b.y`, whichever order they come in. -/
def Coordinate.y_in_range (self a b : Coordinate) : Bool :=
  if a.y ≤ b.y then decide (a.y ≤ self.y ∧ self.y ≤ b.y)
  else decide (b.y ≤ self.y ∧ self.y ≤ a.y)

/-- `Coordinate::x_in_range` from `coordinate.rs`: `self.x` lies between `a.x`
and `b.x` (either order) and the y-range check also passes. -/
def Coordinate.x_in_range (self a b : Coordinate) : Bool :=
  if a.x ≤ b.x then decide (a.x ≤ self.x ∧ self.x ≤ b.x) && self.y_in_range a b
  else decide (b.x ≤ self.x ∧ self.x ≤ a.x) && self.y_in_range a b

/-- `Coordinate::in_rectangle` from `coordinate.rs`: membership in the
axis-aligned box with diagonal corners `a` and `b`, inclusive. -/
def Coordinate.in_rectangle (self a b : Coordinate) : Bool :=
  self.x_in_range a b

/-- `Planet` from `lib.rs`: stationary gravity source, weight also used as
render radius. -/
@[ext] structure Planet where
  coordinate : Coordinate
  weight : Int
deriving DecidableEq

/-- `Asteroid` from `lib.rs`: mobile body with a velocity. -/
@[ext] structure Asteroid where
  coordinate : Coordinate
  velocity : Vector
deriving DecidableEq

/-- `GravityType` from `lib.rs`. -/
inductive GravityType
  | High
  | Low
deriving DecidableEq

/-- The `impl From<GravityType> for i32` in `lib.rs`: `High → 2`, `Low → 1`. -/
def i32_from : GravityType → Int
  | .High => 2
  | .Low => 1

/-- The Rust `as i32` cast applied to `GravityType` (a fieldless enum with
default discriminants) yields the discriminant: `High = 0`, `Low = 1`.  This
cast does NOT go through the `From<GravityType> for i32` impl. -/
def GravityType.as_i32 : GravityType → Int
  | .High => 0
  | .Low => 1

/-- `CursedPlanet` from `lib.rs`. -/
@[ext] structure CursedPlanet where
  previous_state : GravityType
  weight : Int
  coordinate : Coordinate
deriving DecidableEq

/-- `GravitySource for CursedPlanet::get_weight` from `lib.rs`:
`(self.previous_state.clone() as i32) * self.weight`.  The cast is the
discriminant cast (`as_i32`), and the state toggle is commented out in the
source, so no state change happens. -/
def CursedPlanet.get_weight (c : CursedPlanet) : Int :=
  c.previous_state.as_i32 * c.weight

/-- A boxed `dyn CircularGravitySource` from `lib.rs`: the trait is implemented
by `Planet` (and `CursedPlanet` implements `GravitySource` and `IntoCircle`). -/
inductive Source
  | planet (p : Planet)
  | cursed (c : CursedPlanet)
deriving DecidableEq

/-- `Position::get_position` dispatch over the source kinds. -/
def Source.get_position : Source → Coordinate
  | .planet p => p.coordinate
  | .cursed c => c.coordinate

/-- `GravitySource::get_weight` dispatch over the source kinds. -/
def Source.get_weight : Source → Int
  | .planet p => p.weight
  | .cursed c => c.get_weight

/-- `get_distance` from `lib.rs`:
`(((x1-x2)*(x1-x2) + (y1-y2)*(y1-y2)) as f64).sqrt() as i32`.
The operand is a nonnegative integer below 2^62, exactly representable in
`f64`; `f64::sqrt` is correctly rounded and `as i32` truncates toward zero, so
the result is the integer floor of the real square root, i.e. `Nat.sqrt` of the
squared norm. -/
def get_distance (x1 y1 x2 y2 : Int) : Int :=
  Int.ofNat (Nat.sqrt ((x1 - x2) * (x1 - x2) + (y1 - y2) * (y1 - y2)).toNat)

/-- One iteration of the inner loop of `apply_physics` in `lib.rs`: one
`(planet_coord, planet_weight)` snapshot acting on one asteroid.  The distance
is squared, the force computed component-wise with truncating division, and
subtracted from the velocity.  `none` models the division-by-zero panic when
the squared distance is zero. -/
def step_pair (g : Int) (src : Coordinate × Int) (a : Asteroid) : Option Asteroid :=
  let distance := get_distance src.1.x src.1.y a.coordinate.x a.coordinate.y
  let distance2 := distance * distance
  if distance2 = 0 then none
  else
    let force : Vector :=
      ⟨Int.tdiv ((a.coordinate.x - src.1.x) * src.2 * g) distance2,
       Int.tdiv ((a.coordinate.y - src.1.y) * src.2 * g) distance2⟩
    some { a with velocity := ⟨a.velocity.x - force.x, a.velocity.y - force.y⟩ }

/-- The inner `for_each` of `apply_physics`: fold one asteroid through every
snapshot tuple, accumulating force into its velocity. -/
def update_velocity (g : Int) : List (Coordinate × Int) → Asteroid → Option Asteroid
  | [], a => some a
  | src :: rest, a => (step_pair g src a).bind (update_velocity g rest)

/-- The outer `for_each` of the velocity phase of `apply_physics`: every
asteroid is folded through every source tuple. -/
def update_all (g : Int) (srcs : List (Coordinate × Int)) :
    List Asteroid → Option (List Asteroid)
  | [] => some []
  | a :: rest =>
    (update_velocity g srcs a).bind fun a1 =>
      (update_all g srcs rest).map fun rest1 => a1 :: rest1

/-- The position phase of `apply_physics` in `lib.rs`: advance the coordinate
by the (already fully updated) velocity. -/
def advance (a : Asteroid) : Asteroid :=
  { a with coordinate := ⟨a.coordinate.x + a.velocity.x, a.coordinate.y + a.velocity.y⟩ }

/-- `apply_physics` from `lib.rs`: snapshot `(position, weight)` of every
source, update every asteroid's velocity against every snapshot, then advance
every asteroid's position by its updated velocity, and return the sources
untouched together with the updated asteroids. -/
def apply_physics (gravity_sources : List Source) (asteroids : List Asteroid)
    (gravitational_constant : Int) : Option (List Source × List Asteroid) :=
  let gravity_source_tuples := gravity_sources.map fun p => (p.get_position, p.get_weight)
  (update_all gravitational_constant gravity_source_tuples asteroids).map
    fun asteroids1 => (gravity_sources, asteroids1.map advance)

/-- `Circle` from `lib.rs`. -/
structure Circle where
  cx : Int
  cy : Int
  r : Int
  stroke : String
  fill : String
  stroke_width : Int
deriving DecidableEq

/-- `IntoCircle for Planet::as_circle` from `lib.rs`: radius is the weight. -/
def Planet.as_circle (p : Planet) : Circle :=
  ⟨p.coordinate.x, p.coordinate.y, p.weight, "green", "black", 3⟩

/-- `Asteroid::as_circle` from `lib.rs`: fixed radius 2. -/
def Asteroid.as_circle (a : Asteroid) : Circle :=
  ⟨a.coordinate.x, a.coordinate.y, 2, "green", "black", 3⟩

/-- `IntoCircle for CursedPlanet::as_circle` from `lib.rs`: fixed radius 2. -/
def CursedPlanet.as_circle (c : CursedPlanet) : Circle :=
  ⟨c.coordinate.x, c.coordinate.y, 2, "green", "black", 3⟩

/-- `ObjectType` from `lib.rs`: the world's tagged union, only `Planet` and
`Asteroid` are constructible variants. -/
inductive ObjectType
  | planet (p : Planet)
  | asteroid (a : Asteroid)
deriving DecidableEq

/-- `ObjectType::get_circle` from `lib.rs`. -/
def ObjectType.get_circle : ObjectType → Circle
  | .planet p => p.as_circle
  | .asteroid a => a.as_circle

/-- `handle_connection` from `lib.rs`, with the transport stripped: returns the
serialized circle list (the response body) together with the world value the
function returns to `start_server` for the next request.  The source partitions
`objects` into boxed planet sources and asteroids, calls `apply_physics`, and
binds the results to `planets` / `asteroids`; it then builds a `circles` list
from the updated `planets` — but both that list and the updated asteroids are
dead: the serialized body is `objects.iter().map(|o| o.get_circle())` over the
ORIGINAL `objects`, and the function returns the original `objects` unchanged.
`none` models a physics panic aborting the connection. -/
def handle_connection (objects : List ObjectType) (gravitational_constant : Int) :
    Option (List Circle × List ObjectType) :=
  let input_planets : List Source := objects.filterMap fun o =>
    match o with
    | .planet p => some (Source.planet p)
    | .asteroid _ => none
  let input_asteroids : List Asteroid := objects.filterMap fun o =>
    match o with
    | .asteroid a => some a
    | .planet _ => none
  (apply_physics input_planets input_asteroids gravitational_constant).map
    fun _ => (objects.map ObjectType.get_circle, objects)

/-- The startup world from `main.rs`: a planet at (500,500) of weight 50 and
two asteroids; the server is started with gravitational constant 70. -/
def default_objects : List ObjectType :=
  [ .planet ⟨⟨500, 500⟩, 50⟩,
    .asteroid ⟨⟨250, 250⟩, ⟨30, -10⟩⟩,
    .asteroid ⟨⟨750, 750⟩, ⟨-30, 10⟩⟩ ]

/-- Evaluation principle for `get_distance`: any nonnegative `d` whose square
sandwiches the squared norm is the value `get_distance` returns (it is the
integer floor of the Euclidean norm). -/
theorem get_distance_eq (x1 y1 x2 y2 d : Int) (h0 : 0 ≤ d)
    (h1 : d * d ≤ (x1 - x2) * (x1 - x2) + (y1 - y2) * (y1 - y2))
    (h2 : (x1 - x2) * (x1 - x2) + (y1 - y2) * (y1 - y2) < (d + 1) * (d + 1)) :
    get_distance x1 y1 x2 y2 = d := by
  have hn : (0 : Int) ≤ (x1 - x2) * (x1 - x2) + (y1 - y2) * (y1 - y2) :=
    add_nonneg (mul_self_nonneg _) (mul_self_nonneg _)
  obtain ⟨D, rfl⟩ := Int.eq_ofNat_of_zero_le h0
  obtain ⟨N, hN⟩ := Int.eq_ofNat_of_zero_le hn
  rw [hN] at h1 h2
  have e1 : D * D ≤ N := by exact_mod_cast h1
  have e2 : N < (D + 1) * (D + 1) := by exact_mod_cast h2
  have hD : D = Nat.sqrt N := Nat.eq_sqrt.mpr ⟨e1, e2⟩
  unfold get_distance
  rw [hN]
  simp [← hD]

/-- The distance used for both default-world asteroids: the planet sits at
(500,500) and the asteroids at (250,250) and (750,750), at squared norm
125000, whose truncated root is 353. -/
theorem get_distance_default₁ : get_distance 500 500 250 250 = 353 :=
  get_distance_eq _ _ _ _ _ (by norm_num) (by norm_num) (by norm_num)

theorem get_distance_default₂ : get_distance 500 500 750 750 = 353 :=
  get_distance_eq _ _ _ _ _ (by norm_num) (by norm_num) (by norm_num)

/-- Distance from the origin to (10,0) is exactly 10. -/
theorem get_distance_ten : get_distance 0 0 10 0 = 10 :=
  get_distance_eq _ _ _ _ _ (by norm_num) (by norm_num) (by norm_num)

/-- One tick of the default startup world: the planet is unchanged and the two
asteroids move to (287,247) and (713,753) with velocities (37,-3) and (-37,3). -/
theorem default_tick :
    apply_physics
      [Source.planet ⟨⟨500, 500⟩, 50⟩]
      [⟨⟨250, 250⟩, ⟨30, -10⟩⟩, ⟨⟨750, 750⟩, ⟨-30, 10⟩⟩] 70 =
      some ([Source.planet ⟨⟨500, 500⟩, 50⟩],
        [⟨⟨287, 247⟩, ⟨37, -3⟩⟩, ⟨⟨713, 753⟩, ⟨-37, 3⟩⟩]) := by
  norm_num [apply_physics, update_all, update_velocity, step_pair, get_distance_default₁,
    get_distance_default₂, advance, Source.get_position, Source.get_weight]
  decide

/-- Propositional characterization of `in_rectangle`: the point lies between
the two corners on each axis, whichever corner is smaller. -/
theorem in_rectangle_eq_true_iff (p a b : Coordinate) :
    p.in_rectangle a b = true ↔
      ((a.x ≤ p.x ∧ p.x ≤ b.x) ∨ (b.x ≤ p.x ∧ p.x ≤ a.x)) ∧
      ((a.y ≤ p.y ∧ p.y ≤ b.y) ∨ (b.y ≤ p.y ∧ p.y ≤ a.y)) := by
  simp only [Coordinate.in_rectangle, Coordinate.x_in_range, Coordinate.y_in_range]
  split_ifs <;> simp only [Bool.and_eq_true, decide_eq_true_eq] <;> omega

/-- C8: for all coordinates `p a b`, `in_rectangle` is symmetric under swapping
the two corners, and a corner is always inside its own rectangle. -/
theorem in_rectangle_corner_swap_and_corner_mem (p a b : Coordinate) :
    p.in_rectangle a b = p.in_rectangle b a ∧ a.in_rectangle a b = true := by
  constructor
  · rw [Bool.eq_iff_iff, in_rectangle_eq_true_iff, in_rectangle_eq_true_iff]
    omega
  · rw [in_rectangle_eq_true_iff]
    omega

/-- C10: a degenerate rectangle whose two corners coincide contains exactly its
corner: `p.in_rectangle a a = true ↔ p = a`. -/
theorem in_rectangle_degenerate (p a : Coordinate) :
    p.in_rectangle a a = true ↔ p = a := by
  rw [in_rectangle_eq_true_iff]
  constructor
  · intro h
    ext <;> omega
  · rintro rfl
    omega

/-- C2: the claim fails on the code.  `CursedPlanet::get_weight` multiplies the
weight by the Rust `as i32` cast of `previous_state`, which is the enum
discriminant (High = 0, Low = 1), not the multiplier of the
`From<GravityType> for i32` impl (High = 2, Low = 1): a `CursedPlanet` with
`previous_state = High` and weight 5 has effective weight 0, not 10. -/
theorem cursed_planet_get_weight_uses_discriminant :
    CursedPlanet.get_weight ⟨GravityType.High, 5, ⟨0, 0⟩⟩ = 0 ∧
    CursedPlanet.get_weight ⟨GravityType.Low, 5, ⟨0, 0⟩⟩ = 5 ∧
    i32_from GravityType.High = 2 ∧ i32_from GravityType.Low = 1 ∧
    (0 : Int) ≠ 2 * 5 := by
  refine ⟨rfl, ?_, rfl, rfl, by norm_num⟩
  show GravityType.as_i32 .Low * 5 = 5
  norm_num [GravityType.as_i32]

/-- C6: the render frame for one request on the default startup world has
exactly three circles, in world order: the planet's with radius 50 and the two
asteroids' with radius 2, all with stroke "green", fill "black" and
stroke-width 3. -/
theorem default_world_render_frame :
    handle_connection default_objects 70 =
      some ([⟨500, 500, 50, "green", "black", 3⟩,
             ⟨250, 250, 2, "green", "black", 3⟩,
             ⟨750, 750, 2, "green", "black", 3⟩], default_objects) := by
  show (apply_physics [Source.planet ⟨⟨500, 500⟩, 50⟩]
      [⟨⟨250, 250⟩, ⟨30, -10⟩⟩, ⟨⟨750, 750⟩, ⟨-30, 10⟩⟩] 70).map
      (fun _ => (default_objects.map ObjectType.get_circle, default_objects)) =
    some ([⟨500, 500, 50, "green", "black", 3⟩,
           ⟨250, 250, 2, "green", "black", 3⟩,
           ⟨750, 750, 2, "green", "black", 3⟩], default_objects)
  rw [default_tick]
  rfl

/-- C1: the claim fails on the code.  `handle_connection` calls `apply_physics`
but discards its result: the world it hands back to `start_server` for the next
request is the original `objects` list, unchanged — on the default startup
world the retained asteroids stay at (250,250) and (750,750) although the tick
it just computed moves them to (287,247) and (713,753). -/
theorem handle_connection_retains_stale_world :
    (handle_connection default_objects 70).map Prod.snd = some default_objects ∧
    apply_physics [Source.planet ⟨⟨500, 500⟩, 50⟩]
      [⟨⟨250, 250⟩, ⟨30, -10⟩⟩, ⟨⟨750, 750⟩, ⟨-30, 10⟩⟩] 70 =
      some ([Source.planet ⟨⟨500, 500⟩, 50⟩],
        [⟨⟨287, 247⟩, ⟨37, -3⟩⟩, ⟨⟨713, 753⟩, ⟨-37, 3⟩⟩]) := by
  refine ⟨?_, default_tick⟩
  show ((apply_physics [Source.planet ⟨⟨500, 500⟩, 50⟩]
      [⟨⟨250, 250⟩, ⟨30, -10⟩⟩, ⟨⟨750, 750⟩, ⟨-30, 10⟩⟩] 70).map
      (fun _ => (default_objects.map ObjectType.get_circle, default_objects))).map
      Prod.snd = some default_objects
  rw [default_tick]
  rfl

/-- C9: `apply_physics` returns the gravity sources exactly as given: the first
component of any successful result is the input source list. -/
theorem apply_physics_sources_unchanged (sources : List Source)
    (asteroids : List Asteroid) (g : Int) (out : List Source × List Asteroid)
    (h : apply_physics sources asteroids g = some out) : out.1 = sources := by
  unfold apply_physics at h
  rcases Option.map_eq_some'.mp h with ⟨v, _, rfl⟩
  rfl

/-- Witness for C9 at the default startup world. -/
theorem apply_physics_sources_unchanged_witness :
    (([Source.planet ⟨⟨500, 500⟩, 50⟩],
      [(⟨⟨287, 247⟩, ⟨37, -3⟩⟩ : Asteroid), ⟨⟨713, 753⟩, ⟨-37, 3⟩⟩]) :
        List Source × List Asteroid).1 = [Source.planet ⟨⟨500, 500⟩, 50⟩] :=
  apply_physics_sources_unchanged _ _ 70 _ default_tick

/-- A single source-asteroid interaction faults (squared distance zero) exactly
when the snapshot position coincides with the asteroid's position. -/
theorem step_pair_eq_none_iff (g : Int) (src : Coordinate × Int) (a : Asteroid) :
    step_pair g src a = none ↔ src.1 = a.coordinate := by
  have key : get_distance src.1.x src.1.y a.coordinate.x a.coordinate.y *
      get_distance src.1.x src.1.y a.coordinate.x a.coordinate.y = 0 ↔
      src.1 = a.coordinate := by
    rw [mul_self_eq_zero]
    unfold get_distance
    rw [Int.ofNat_eq_natCast, Nat.cast_eq_zero, Nat.sqrt_eq_zero, Int.toNat_eq_zero]
    constructor
    · intro h
      have h1 := mul_self_nonneg (src.1.x - a.coordinate.x)
      have h2 := mul_self_nonneg (src.1.y - a.coordinate.y)
      have e1 : src.1.x - a.coordinate.x = 0 :=
        mul_self_eq_zero.mp (le_antisymm (by linarith) h1)
      have e2 : src.1.y - a.coordinate.y = 0 :=
        mul_self_eq_zero.mp (le_antisymm (by linarith) h2)
      ext <;> omega
    · intro h
      rw [h]
      simp
  simp only [step_pair]
  split_ifs with hd
  · simpa using key.mp hd
  · simpa using fun hc => hd (key.mpr hc)

/-- A successful source-asteroid interaction leaves the coordinate alone and
subtracts the component-wise force from the velocity. -/
theorem step_pair_eq_some (g : Int) (src : Coordinate × Int) (a a1 : Asteroid)
    (h : step_pair g src a = some a1) :
    a1 = { a with velocity :=
      ⟨a.velocity.x - Int.tdiv ((a.coordinate.x - src.1.x) * src.2 * g)
          (get_distance src.1.x src.1.y a.coordinate.x a.coordinate.y *
           get_distance src.1.x src.1.y a.coordinate.x a.coordinate.y),
       a.velocity.y - Int.tdiv ((a.coordinate.y - src.1.y) * src.2 * g)
          (get_distance src.1.x src.1.y a.coordinate.x a.coordinate.y *
           get_distance src.1.x src.1.y a.coordinate.x a.coordinate.y)⟩ } := by
  simp only [step_pair] at h
  split_ifs at h with hd
  exact (Option.some.inj h).symm

/-- The per-asteroid fold faults exactly when some snapshot coincides with the
asteroid's (unchanging) position. -/
theorem update_velocity_eq_none_iff (g : Int) (srcs : List (Coordinate × Int))
    (a : Asteroid) :
    update_velocity g srcs a = none ↔ ∃ src ∈ srcs, src.1 = a.coordinate := by
  induction srcs generalizing a with
  | nil => simp [update_velocity]
  | cons src rest ih =>
    simp only [update_velocity]
    rcases h : step_pair g src a with _ | a1
    · simp only [Option.none_bind]
      have hc := (step_pair_eq_none_iff g src a).mp h
      simp only [List.mem_cons, true_iff]
      exact ⟨src, Or.inl rfl, hc⟩
    · have hnc : ¬ src.1 = a.coordinate := fun hc => by
        rw [(step_pair_eq_none_iff g src a).mpr hc] at h
        cases h
      have hcoord : a1.coordinate = a.coordinate := by
        rw [step_pair_eq_some g src a a1 h]
      simp only [Option.some_bind, ih a1, hcoord, List.mem_cons]
      constructor
      · rintro ⟨s, hs, he⟩
        exact ⟨s, Or.inr hs, he⟩
      · rintro ⟨s, rfl | hs, he⟩
        · exact absurd he hnc
        · exact ⟨s, hs, he⟩

/-- The velocity phase over all asteroids faults exactly when some snapshot
coincides with some asteroid's position. -/
theorem update_all_eq_none_iff (g : Int) (srcs : List (Coordinate × Int))
    (l : List Asteroid) :
    update_all g srcs l = none ↔ ∃ a ∈ l, ∃ src ∈ srcs, src.1 = a.coordinate := by
  induction l with
  | nil => simp [update_all]
  | cons a rest ih =>
    simp only [update_all]
    rcases h : update_velocity g srcs a with _ | a1
    · simp only [Option.none_bind, List.mem_cons, true_iff]
      exact ⟨a, Or.inl rfl, (update_velocity_eq_none_iff g srcs a).mp h⟩
    · have hnc := (update_velocity_eq_none_iff g srcs a).not.mp (by simp [h])
      simp only [Option.some_bind, Option.map_eq_none', ih, List.mem_cons]
      constructor
      · rintro ⟨b, hb, hc⟩
        exact ⟨b, Or.inr hb, hc⟩
      · rintro ⟨b, rfl | hb, hc⟩
        · exact absurd hc hnc
        · exact ⟨b, hb, hc⟩

/-- C5: `apply_physics` faults with a division by zero if and only if some
gravity source and some asteroid occupy exactly the same coordinate; on every
input without such a coincidence it returns a result.  (The embedding is a pure
function, matching the contract that the computation performs no I/O.) -/
theorem apply_physics_div_zero_iff (sources : List Source)
    (asteroids : List Asteroid) (g : Int) :
    apply_physics sources asteroids g = none ↔
      ∃ s ∈ sources, ∃ a ∈ asteroids, s.get_position = a.coordinate := by
  unfold apply_physics
  rw [Option.map_eq_none', update_all_eq_none_iff]
  constructor
  · rintro ⟨a, ha, src, hsrc, he⟩
    rcases List.mem_map.mp hsrc with ⟨s, hs, rfl⟩
    exact ⟨s, hs, a, ha, he⟩
  · rintro ⟨s, hs, a, ha, he⟩
    exact ⟨a, ha, (s.get_position, s.get_weight),
      List.mem_map.mpr ⟨s, hs, rfl⟩, he⟩

/-- The x-component of the force one snapshot exerts on an asteroid. -/
def force_x (g : Int) (a : Asteroid) (src : Coordinate × Int) : Int :=
  Int.tdiv ((a.coordinate.x - src.1.x) * src.2 * g)
    (get_distance src.1.x src.1.y a.coordinate.x a.coordinate.y *
     get_distance src.1.x src.1.y a.coordinate.x a.coordinate.y)

/-- The y-component of the force one snapshot exerts on an asteroid. -/
def force_y (g : Int) (a : Asteroid) (src : Coordinate × Int) : Int :=
  Int.tdiv ((a.coordinate.y - src.1.y) * src.2 * g)
    (get_distance src.1.x src.1.y a.coordinate.x a.coordinate.y *
     get_distance src.1.x src.1.y a.coordinate.x a.coordinate.y)

/-- The per-asteroid fold keeps the coordinate fixed and subtracts the sum of
all snapshot forces from the velocity: superposition of forces. -/
theorem update_velocity_eq_some (g : Int) (srcs : List (Coordinate × Int))
    (a a1 : Asteroid) (h : update_velocity g srcs a = some a1) :
    a1 = ⟨a.coordinate,
      ⟨a.velocity.x - (srcs.map (force_x g a)).sum,
       a.velocity.y - (srcs.map (force_y g a)).sum⟩⟩ := by
  induction srcs generalizing a with
  | nil =>
    simp only [update_velocity] at h
    rw [← Option.some.inj h]
    simp
  | cons src rest ih =>
    simp only [update_velocity] at h
    rcases hs : step_pair g src a with _ | a2
    · rw [hs] at h
      cases h
    · rw [hs, Option.some_bind] at h
      have ha2 := step_pair_eq_some g src a a2 hs
      have hco : a2.coordinate = a.coordinate := by rw [ha2]
      have hfx : rest.map (force_x g a2) = rest.map (force_x g a) :=
        List.map_congr_left fun s _ => by unfold force_x; rw [hco]
      have hfy : rest.map (force_y g a2) = rest.map (force_y g a) :=
        List.map_congr_left fun s _ => by unfold force_y; rw [hco]
      rw [ih a2 h, hfx, hfy, hco, ha2]
      simp only [List.map_cons, List.sum_cons, force_x, force_y]
      ext <;> dsimp <;> ring

/-- The velocity phase maps every asteroid to its fully accumulated update. -/
theorem update_all_eq_some (g : Int) (srcs : List (Coordinate × Int))
    (l out : List Asteroid) (h : update_all g srcs l = some out) :
    out = l.map fun a => ⟨a.coordinate,
      ⟨a.velocity.x - (srcs.map (force_x g a)).sum,
       a.velocity.y - (srcs.map (force_y g a)).sum⟩⟩ := by
  induction l generalizing out with
  | nil =>
    simp only [update_all] at h
    rw [← Option.some.inj h]
    simp
  | cons a rest ih =>
    simp only [update_all] at h
    rcases hv : update_velocity g srcs a with _ | a1
    · rw [hv] at h
      cases h
    · rw [hv, Option.some_bind] at h
      rcases Option.map_eq_some'.mp h with ⟨rest1, hrest, rfl⟩
      rw [List.map_cons, ih rest1 hrest, update_velocity_eq_some g srcs a a1 hv]

/-- C4: `apply_physics` first accumulates, for every asteroid, the forces from
all sources additively into its velocity, and only then advances each
asteroid's position by exactly its updated velocity.  The returned list is the
map of this two-phase update over the input asteroids, in order. -/
theorem apply_physics_two_phase (sources : List Source) (asteroids : List Asteroid)
    (g : Int) (out : List Source × List Asteroid)
    (h : apply_physics sources asteroids g = some out) :
    out.2 = asteroids.map fun a =>
      let vx := a.velocity.x -
        (sources.map fun s => force_x g a (s.get_position, s.get_weight)).sum
      let vy := a.velocity.y -
        (sources.map fun s => force_y g a (s.get_position, s.get_weight)).sum
      ⟨⟨a.coordinate.x + vx, a.coordinate.y + vy⟩, ⟨vx, vy⟩⟩ := by
  unfold apply_physics at h
  rcases Option.map_eq_some'.mp h with ⟨v, hv, rfl⟩
  dsimp only
  rw [update_all_eq_some _ _ _ _ hv, List.map_map]
  refine List.map_congr_left fun a _ => ?_
  simp [advance, List.map_map, Function.comp_def]

/-- Witness for C4 at the default startup world. -/
theorem apply_physics_two_phase_witness :
    (([Source.planet ⟨⟨500, 500⟩, 50⟩],
      [(⟨⟨287, 247⟩, ⟨37, -3⟩⟩ : Asteroid), ⟨⟨713, 753⟩, ⟨-37, 3⟩⟩]) :
        List Source × List Asteroid).2 =
      [(⟨⟨250, 250⟩, ⟨30, -10⟩⟩ : Asteroid), ⟨⟨750, 750⟩, ⟨-30, 10⟩⟩].map fun a =>
        let vx := a.velocity.x -
          ([Source.planet ⟨⟨500, 500⟩, 50⟩].map fun s =>
            force_x 70 a (s.get_position, s.get_weight)).sum
        let vy := a.velocity.y -
          ([Source.planet ⟨⟨500, 500⟩, 50⟩].map fun s =>
            force_y 70 a (s.get_position, s.get_weight)).sum
        ⟨⟨a.coordinate.x + vx, a.coordinate.y + vy⟩, ⟨vx, vy⟩⟩ :=
  apply_physics_two_phase _ _ 70 _ default_tick

/-- C3: for a non-coincident source-mobile pair, the distance is the Euclidean
norm truncated to an integer (the unique nonnegative `d` whose square
sandwiches the squared displacement), then squared; the force is
`(mobile − source) * weight * G / d²` component-wise with division truncating
toward zero (`Int.tdiv`), and it is subtracted from the mobile's velocity. -/
theorem step_pair_force_formula (g : Int) (p : Coordinate) (w : Int) (a : Asteroid)
    (h : p ≠ a.coordinate) :
    ∃ d : Int, 0 ≤ d ∧
      d * d ≤ (a.coordinate.x - p.x) * (a.coordinate.x - p.x) +
          (a.coordinate.y - p.y) * (a.coordinate.y - p.y) ∧
      (a.coordinate.x - p.x) * (a.coordinate.x - p.x) +
          (a.coordinate.y - p.y) * (a.coordinate.y - p.y) < (d + 1) * (d + 1) ∧
      step_pair g (p, w) a = some { a with velocity :=
        ⟨a.velocity.x - Int.tdiv ((a.coordinate.x - p.x) * w * g) (d * d),
         a.velocity.y - Int.tdiv ((a.coordinate.y - p.y) * w * g) (d * d)⟩ } := by
  have hsq : (a.coordinate.x - p.x) * (a.coordinate.x - p.x) +
      (a.coordinate.y - p.y) * (a.coordinate.y - p.y) =
      (p.x - a.coordinate.x) * (p.x - a.coordinate.x) +
      (p.y - a.coordinate.y) * (p.y - a.coordinate.y) := by ring
  set n : Int := (p.x - a.coordinate.x) * (p.x - a.coordinate.x) +
      (p.y - a.coordinate.y) * (p.y - a.coordinate.y) with hn_def
  have hn : 0 ≤ n := add_nonneg (mul_self_nonneg _) (mul_self_nonneg _)
  refine ⟨get_distance p.x p.y a.coordinate.x a.coordinate.y, ?_, ?_, ?_, ?_⟩
  · exact Int.ofNat_nonneg _
  · rw [hsq]
    show (Int.ofNat (Nat.sqrt n.toNat)) * (Int.ofNat (Nat.sqrt n.toNat)) ≤ n
    calc (Int.ofNat (Nat.sqrt n.toNat)) * (Int.ofNat (Nat.sqrt n.toNat))
        = ((Nat.sqrt n.toNat * Nat.sqrt n.toNat : Nat) : Int) := by
          rw [Int.ofNat_eq_natCast]; push_cast; ring
      _ ≤ (n.toNat : Int) := by exact_mod_cast Nat.sqrt_le n.toNat
      _ = n := Int.toNat_of_nonneg hn
  · rw [hsq]
    show n < (Int.ofNat (Nat.sqrt n.toNat) + 1) * (Int.ofNat (Nat.sqrt n.toNat) + 1)
    calc n = (n.toNat : Int) := (Int.toNat_of_nonneg hn).symm
      _ < (((Nat.sqrt n.toNat + 1) * (Nat.sqrt n.toNat + 1) : Nat) : Int) := by
          exact_mod_cast Nat.lt_succ_sqrt n.toNat
      _ = (Int.ofNat (Nat.sqrt n.toNat) + 1) * (Int.ofNat (Nat.sqrt n.toNat) + 1) := by
          rw [Int.ofNat_eq_natCast]; push_cast; ring
  · rcases hsp : step_pair g (p, w) a with _ | a1
    · exact absurd ((step_pair_eq_none_iff g (p, w) a).mp hsp) h
    · rw [step_pair_eq_some g (p, w) a a1 hsp]

/-- Witness for C3: the pair from the spec's single-emitter scenario, emitter
at the origin with weight 10, mobile at (10,0). -/
theorem step_pair_force_formula_witness :
    (⟨0, 0⟩ : Coordinate) ≠ (⟨10, 0⟩ : Coordinate) ∧
    ∃ d : Int, 0 ≤ d ∧
      d * d ≤ (10 - 0) * (10 - 0) + (0 - 0) * (0 - 0) ∧
      (10 - 0) * (10 - 0) + (0 - 0) * (0 - 0) < (d + 1) * (d + 1) ∧
      step_pair 1 (⟨0, 0⟩, 10) ⟨⟨10, 0⟩, ⟨0, 0⟩⟩ =
        some { (⟨⟨10, 0⟩, ⟨0, 0⟩⟩ : Asteroid) with velocity :=
          ⟨0 - Int.tdiv ((10 - 0) * 10 * 1) (d * d),
           0 - Int.tdiv ((0 - 0) * 10 * 1) (d * d)⟩ } :=
  ⟨by decide, step_pair_force_formula 1 ⟨0, 0⟩ 10 ⟨⟨10, 0⟩, ⟨0, 0⟩⟩ (by decide)⟩

/-- C7 as stated fails at emitter weight 1: the force `10·1·1 / 100` truncates
to 0, so the mobile's velocity stays (0,0) and its position stays (10,0) — the
x-velocity does not become negative and x does not decrease. -/
theorem single_emitter_weight_one_no_pull :
    apply_physics [Source.planet ⟨⟨0, 0⟩, 1⟩] [⟨⟨10, 0⟩, ⟨0, 0⟩⟩] 1 =
      some ([Source.planet ⟨⟨0, 0⟩, 1⟩], [⟨⟨10, 0⟩, ⟨0, 0⟩⟩]) := by
  norm_num [apply_physics, update_all, update_velocity, step_pair, get_distance_ten,
    advance, Source.get_position, Source.get_weight]
  decide

/-- C7 amended: for one emitter of weight `w ≥ 10` at the origin and one mobile
at (10,0) with zero velocity and G = 1, one tick makes the mobile's x-velocity
negative, keeps its y-velocity zero, and decreases its x-coordinate. -/
theorem single_emitter_pulls_toward_origin (w : Int) (hw : 10 ≤ w) :
    ∃ vx : Int, vx < 0 ∧
      apply_physics [Source.planet ⟨⟨0, 0⟩, w⟩] [⟨⟨10, 0⟩, ⟨0, 0⟩⟩] 1 =
        some ([Source.planet ⟨⟨0, 0⟩, w⟩], [⟨⟨10 + vx, 0⟩, ⟨vx, 0⟩⟩]) ∧
      10 + vx < 10 := by
  have hq : 1 ≤ Int.tdiv (10 * w) 100 := by
    rw [Int.tdiv_eq_ediv (by linarith) (by norm_num)]
    rw [Int.le_ediv_iff_mul_le (by norm_num)]
    linarith
  refine ⟨-Int.tdiv (10 * w) 100, by linarith, ?_, by linarith⟩
  norm_num [apply_physics, update_all, update_velocity, step_pair, get_distance_ten,
    advance, Source.get_position, Source.get_weight]

/-- Witness for C7's amended statement at weight exactly 10. -/
theorem single_emitter_pulls_toward_origin_witness :
    (10 : Int) ≤ 10 ∧
    ∃ vx : Int, vx < 0 ∧
      apply_physics [Source.planet ⟨⟨0, 0⟩, 10⟩] [⟨⟨10, 0⟩, ⟨0, 0⟩⟩] 1 =
        some ([Source.planet ⟨⟨0, 0⟩, 10⟩], [⟨⟨10 + vx, 0⟩, ⟨vx, 0⟩⟩]) ∧
      10 + vx < 10 :=
  ⟨le_refl 10, single_emitter_pulls_toward_origin 10 (le_refl 10)⟩

end Simulator
